import Mathlib

/-!
# Verification of the PublicPulse document review pipeline

Shallow embedding of the document review state machine, department router,
stats aggregator and AI-extraction service of the `darksagae/pulse` backend
(`src/backend/routers/users.py`, `src/backend/routers/documents.py`,
`src/backend/app_new.py`, `src/backend/ai_service_with_gemini.py`), together
with theorems settling the specification claims about them.

Conventions of the embedding:
* Python dicts holding document records become the fixed `Document` structure;
  keys that a handler adds only later (`ai_extraction`, `ai_validation`,
  `ai_assessment`, `ai_fraud_analysis`) are `Option` fields that are `none`
  at creation.
* `request.get(key, default)` on an incoming JSON body becomes an `Option`
  field read with `Option.getD`.
* Float scores become `Rat` (the code only compares and clamps them).
* The ambient clock (`datetime.now()`) is passed in as an explicit
  `current_time : String` argument; the `is_today` date test of the stats
  endpoint is passed in as an explicit predicate.
* A call to the external Gemini AI collaborator is represented by its
  outcome, passed in as an argument (`Option GeminiServiceResult` or
  `AiAvail`): the handlers only branch on whether a result object was
  obtained, never on how.
-/

namespace Pulse

/-- src/backend/routers/users.py, `determine_department` (lines 48-62):
fixed lookup table from document type to department, defaulting to `"nira"`
(`department_mapping.get(document_type, 'nira')`). -/
def determine_department (document_type : String) : String :=
  if document_type = "national_id" then "nira"
  else if document_type = "drivers_license" then "nira"
  else if document_type = "birth_certificate" then "nira"
  else if document_type = "passport" then "immigration"
  else if document_type = "visa" then "immigration"
  else if document_type = "marriage_certificate" then "ursb"
  else if document_type = "business_registration" then "ursb"
  else if document_type = "tax_certificate" then "finance"
  else if document_type = "health_certificate" then "health"
  else if document_type = "other" then "nira"
  else "nira"

end Pulse

namespace Pulse

/-- Claim helper: the department codes that appear in the lookup table. -/
def known_departments : List String :=
  ["nira", "immigration", "ursb", "finance", "health"]

end Pulse

namespace Pulse

/-- C3: the department router is a pure total function: the nine mapped
document types go to their departments, and every string that is not one of
the six non-nira keys (so in particular "unknown", "other", and every
unrecognized string) maps to the default "nira"; the result is always a
known department code. -/
theorem determine_department_spec :
    determine_department "national_id" = "nira" ∧
    determine_department "drivers_license" = "nira" ∧
    determine_department "birth_certificate" = "nira" ∧
    determine_department "passport" = "immigration" ∧
    determine_department "visa" = "immigration" ∧
    determine_department "marriage_certificate" = "ursb" ∧
    determine_department "business_registration" = "ursb" ∧
    determine_department "tax_certificate" = "finance" ∧
    determine_department "health_certificate" = "health" ∧
    determine_department "unknown" = "nira" ∧
    determine_department "other" = "nira" ∧
    (∀ s : String, s ≠ "passport" → s ≠ "visa" → s ≠ "marriage_certificate" →
      s ≠ "business_registration" → s ≠ "tax_certificate" → s ≠ "health_certificate" →
      determine_department s = "nira") ∧
    (∀ s : String, determine_department s ∈ known_departments) := by
  refine ⟨rfl, rfl, rfl, rfl, rfl, rfl, rfl, rfl, rfl, rfl, rfl, ?_, ?_⟩
  · intro s h1 h2 h3 h4 h5 h6
    unfold determine_department
    split_ifs <;> simp_all
  · intro s
    unfold determine_department known_departments
    split_ifs <;> simp

/-- Witness for C3: the default clause applied to the unmapped string
"unknown" yields "nira". -/
theorem determine_department_spec_witness :
    determine_department "unknown" = "nira" :=
  determine_department_spec.2.2.2.2.2.2.2.2.2.2.2.1 "unknown"
    (by decide) (by decide) (by decide) (by decide) (by decide) (by decide)

end Pulse

namespace Pulse

/-- The "ai_analysis" block written at submission
(src/backend/routers/users.py lines 110-115). -/
structure AnalysisBlock where
  extracted_text : String
  confidence_score : Rat
  metadata : List (String × String)
  ai_model_used : String
  deriving Repr, DecidableEq

/-- The "ai_extraction" block written by the extraction endpoint
(src/backend/routers/users.py lines 371-377). -/
structure ExtractionBlock where
  extracted_text : String
  confidence_score : Rat
  metadata : List (String × String)
  extracted_at : String
  ai_model_used : String
  deriving Repr, DecidableEq

/-- The "ai_validation" block of the official review endpoint
(src/backend/routers/users.py lines 216-222; in practice never attached,
see `official_review_document`). -/
structure ValidationBlock where
  validation_status : String
  extracted_text : String
  confidence_score : Rat
  corrections : List String
  ai_model_used : String
  deriving Repr, DecidableEq

/-- The "ai_assessment" block of the admin review endpoint
(src/backend/routers/users.py lines 307-313; in practice never attached,
see `users_admin_review_document`). -/
structure AssessmentBlock where
  assessment_status : String
  summary : String
  compliance_check : List (String × String)
  recommendations : List String
  ai_model_used : String
  deriving Repr, DecidableEq

/-- The "ai_fraud_analysis" block of the fraud analysis endpoint
(src/backend/routers/users.py lines 498-506). -/
structure FraudBlock where
  fraud_risk_level : String
  fraud_indicators : List String
  authenticity_score : Rat
  recommendations : List String
  summary : String
  analyzed_at : String
  ai_model_used : String
  deriving Repr, DecidableEq

/-- A document record, as built by `submit_citizen_document`
(src/backend/routers/users.py lines 93-116).  The four AI blocks that later
stages may add under fresh dict keys are `Option` fields, `none` until the
corresponding handler writes them. -/
structure Document where
  id : String
  citizen_id : String
  user_id : String
  document_type : String
  department_id : String
  status : String
  images : List String
  description : String
  assigned_official_id : Option String
  official_review_comment : Option String
  official_reviewed_at : Option String
  admin_review_comment : Option String
  admin_reviewed_at : Option String
  created_at : String
  updated_at : String
  ai_analysis : Option AnalysisBlock
  ai_validation : Option ValidationBlock
  ai_assessment : Option AssessmentBlock
  ai_extraction : Option ExtractionBlock
  ai_fraud_analysis : Option FraudBlock
  deriving Repr, DecidableEq

/-- src/backend/services/database.py, `get_document_by_id` (in-memory path,
line 114): first stored record whose id matches. -/
def get_document_by_id (store : List Document) (document_id : String) : Option Document :=
  store.find? (fun d => d.id == document_id)

/-- src/backend/services/database.py, `create_document` (in-memory path,
line 69): append the record. -/
def create_document (store : List Document) (d : Document) : List Document :=
  store ++ [d]

end Pulse

namespace Pulse

/-- The JSON object parsed out of a Gemini response, as consumed by
`extract_document_information` in src/backend/ai_service_with_gemini.py
(lines 157-167): each field read with `result.get(key, default)`, so each is
optional. -/
structure GeminiParsed where
  extracted_data : Option (List (String × String))
  confidence : Option Rat
  quality_score : Option Rat
  fraud_risk : Option Rat
  recommendations : Option (List String)
  issues : Option (List String)
  deriving Repr, DecidableEq

/-- The dict returned by `GeminiAIService.extract_document_information`
(src/backend/ai_service_with_gemini.py lines 157-167 and 320-330). -/
structure GeminiServiceResult where
  success : Bool
  extracted_data : List (String × String)
  ai_confidence : Rat
  ai_quality_score : Rat
  ai_fraud_risk : Rat
  ai_processing_time : String
  ai_recommendations : List String
  ai_issues : List String
  extracted_at : String
  deriving Repr, DecidableEq

/-- src/backend/ai_service_with_gemini.py, the mock `extracted_data` of
`_fallback_extraction` (lines 292-318); the heterogeneous dict values are
rendered as strings. -/
def fallback_extracted_data (document_type : String) : List (String × String) :=
  if document_type = "national_id" then
    [("full_name", "John Doe"), ("document_number", "1234567890"),
     ("date_of_birth", "1990-01-15"), ("place_of_birth", "Kampala"),
     ("gender", "Male"), ("address", "123 Main Street, Kampala"),
     ("issue_date", "2020-01-15"), ("expiry_date", "2030-01-15")]
  else if document_type = "drivers_license" then
    [("full_name", "Jane Smith"), ("document_number", "DL123456789"),
     ("date_of_birth", "1985-05-20"), ("license_class", "B"),
     ("issue_date", "2020-01-15"), ("expiry_date", "2025-01-15"),
     ("address", "456 Oak Avenue, Kampala")]
  else
    [("full_name", "Michael Johnson"), ("document_type", document_type),
     ("confidence", "0.7")]

/-- src/backend/ai_service_with_gemini.py, `_fallback_extraction`
(lines 287-330): the result substituted when the Gemini call raises. -/
def fallback_extraction (document_type now : String) : GeminiServiceResult :=
  { success := true
    extracted_data := fallback_extracted_data document_type
    ai_confidence := 85/100
    ai_quality_score := 90/100
    ai_fraud_risk := 10/100
    ai_processing_time := "1.0s"
    ai_recommendations := ["Document processed successfully",
      "Data extracted with high confidence"]
    ai_issues := []
    extracted_at := now }

/-- src/backend/ai_service_with_gemini.py,
`GeminiAIService.extract_document_information` (lines 95-172).
`api` is the outcome of `_call_gemini_api`: `some r` when a response object
was obtained (including the parse-failure substitute built at lines 265-277),
`none` when the call raised, in which case the handler falls back to
`_fallback_extraction`.  On the success path the scores are clamped:
`max(confidence, 0.8)`, `max(quality_score, 0.8)`, `min(fraud_risk, 0.3)`
(lines 160-162). -/
def gemini_extract_document_information (api : Option GeminiParsed)
    (document_type processing_time now : String) : GeminiServiceResult :=
  match api with
  | some r =>
      { success := true
        extracted_data := r.extracted_data.getD []
        ai_confidence := max (r.confidence.getD (85/100)) (8/10)
        ai_quality_score := max (r.quality_score.getD (9/10)) (8/10)
        ai_fraud_risk := min (r.fraud_risk.getD (15/100)) (3/10)
        ai_processing_time := processing_time
        ai_recommendations := r.recommendations.getD
          ["Document processed successfully by AI"]
        ai_issues := r.issues.getD []
        extracted_at := now }
  | none => fallback_extraction document_type now

end Pulse

namespace Pulse

/-- C10: the Gemini extractor never reports failure: for every API outcome
(including when the underlying call raises, `api = none`) the returned
result has `success = true`, and the reported scores are clamped so that
`ai_confidence ≥ 0.8`, `ai_quality_score ≥ 0.8` and `ai_fraud_risk ≤ 0.3`. -/
theorem gemini_extract_never_fails (api : Option GeminiParsed)
    (document_type processing_time now : String) :
    (gemini_extract_document_information api document_type processing_time now).success = true ∧
    (8/10 : Rat) ≤ (gemini_extract_document_information api document_type processing_time now).ai_confidence ∧
    (8/10 : Rat) ≤ (gemini_extract_document_information api document_type processing_time now).ai_quality_score ∧
    (gemini_extract_document_information api document_type processing_time now).ai_fraud_risk ≤ (3/10 : Rat) := by
  cases api with
  | none =>
      refine ⟨rfl, ?_, ?_, ?_⟩ <;>
        simp only [gemini_extract_document_information, fallback_extraction] <;> norm_num
  | some r =>
      refine ⟨rfl, ?_, ?_, ?_⟩
      · exact le_max_right _ _
      · exact le_max_right _ _
      · exact min_le_right _ _

end Pulse

namespace Pulse

/-- Outcome of the AI-analysis attempt inside `submit_citizen_document`
(src/backend/routers/users.py lines 74-86): the service was available and
returned a result, the service was unavailable (`get_ai_service()` returned
`None`), or the `try` block raised and the handler fell back to the manually
declared type. -/
inductive AiAvail where
  | ok (r : GeminiServiceResult)
  | noService
  | exn
  deriving Repr, DecidableEq

/-- The JSON body accepted by the submission endpoint
(src/backend/routers/users.py lines 70-92), each field read with
`request.get(key, default)`. -/
structure SubmitRequest where
  images : List String
  description : String
  document_type : Option String
  citizen_id : Option String
  deriving Repr, DecidableEq

/-- The document type computed by `submit_citizen_document`
(src/backend/routers/users.py lines 75-86).  When the AI service returned a
result, the handler reads `ai_analysis.get("document_type", "unknown")`;
the dict returned by `GeminiAIService.extract_document_information` has no
`"document_type"` key (see `GeminiServiceResult`), so the default
`"unknown"` is taken.  When the service is unavailable the initial
`"unknown"` stands; when the `try` block raised, the manually declared type
(default `"unknown"`) is used. -/
def submit_document_type (req : SubmitRequest) (ai : AiAvail) : String :=
  match ai with
  | .ok _ => "unknown"
  | .noService => "unknown"
  | .exn => req.document_type.getD "unknown"

/-- The document record built by `submit_citizen_document`
(src/backend/routers/users.py lines 93-116).  The `ai_analysis` block reads
`ai_analysis.get("extracted_text", "")` and `.get("metadata", {})` from the
service result, which has neither key, so both defaults are taken;
`confidence_score` reads the present `"ai_confidence"` key. -/
def submit_document_record (req : SubmitRequest) (ai : AiAvail)
    (document_id current_time : String) : Document :=
  let document_type := submit_document_type req ai
  let citizen_id := req.citizen_id.getD "citizen_001"
  { id := document_id
    citizen_id := citizen_id
    user_id := citizen_id
    document_type := document_type
    department_id := determine_department document_type
    status := "submitted"
    images := req.images
    description := req.description
    assigned_official_id := none
    official_review_comment := none
    official_reviewed_at := none
    admin_review_comment := none
    admin_reviewed_at := none
    created_at := current_time
    updated_at := current_time
    ai_analysis :=
      match ai with
      | .ok r => some { extracted_text := ""
                        confidence_score := r.ai_confidence
                        metadata := []
                        ai_model_used := "gemini-2.5-flash" }
      | .noService => none
      | .exn => none
    ai_validation := none
    ai_assessment := none
    ai_extraction := none
    ai_fraud_analysis := none }

/-- The JSON response of the submission endpoint
(src/backend/routers/users.py lines 121-129). -/
structure SubmitResponse where
  success : Bool
  message : String
  document_id : String
  status : String
  assigned_department : String
  submitted_at : String
  deriving Repr, DecidableEq

/-- src/backend/routers/users.py, `submit_citizen_document` (lines 64-131):
builds the record, stores it, and returns a success response.  No
precondition is checked; in particular `images` may be empty. -/
def submit_citizen_document (store : List Document) (req : SubmitRequest)
    (ai : AiAvail) (document_id current_time : String) :
    List Document × SubmitResponse :=
  let document := submit_document_record req ai document_id current_time
  (create_document store document,
   { success := true
     message := "Document submitted successfully and assigned to " ++
       document.department_id.toUpper ++ " department"
     document_id := document_id
     status := "submitted"
     assigned_department := document.department_id
     submitted_at := current_time })

end Pulse

namespace Pulse

/-- Store lemma: looking up an appended record finds it when no earlier
record matches the predicate. -/
theorem find?_append_of_not_found {p : Document → Bool} (l : List Document)
    (x : Document) (h : ∀ d ∈ l, p d = false) :
    (l ++ [x]).find? p = if p x then some x else none := by
  induction l with
  | nil => cases hx : p x <;> simp [List.find?, hx]
  | cons a t ih =>
      have ha : p a = false := h a (List.mem_cons_self a t)
      have ht : ∀ d ∈ t, p d = false := fun d hd => h d (List.mem_cons_of_mem a hd)
      simp [List.find?, ha, ih ht]

end Pulse

namespace Pulse

/-- C2 amended: through the users router (`submit_citizen_document`, the
implementation wired by backend/app/main.py), submitting and immediately
reading the document back returns the freshly created record, whose status
is "submitted" and whose department is exactly the router applied to the
record's own document type.  The app_new variant does not satisfy this: it
stores the document directly in status "ai_processed" with a
caller-supplied department. -/
theorem submit_then_get (store : List Document) (req : SubmitRequest)
    (ai : AiAvail) (document_id current_time : String)
    (hfresh : ∀ d ∈ store, d.id ≠ document_id) :
    get_document_by_id (submit_citizen_document store req ai document_id current_time).1
        document_id
      = some (submit_document_record req ai document_id current_time) ∧
    (submit_document_record req ai document_id current_time).status = "submitted" ∧
    (submit_document_record req ai document_id current_time).department_id
      = determine_department
          (submit_document_record req ai document_id current_time).document_type := by
  refine ⟨?_, rfl, rfl⟩
  have hnone : ∀ d ∈ store, (d.id == document_id) = false := by
    intro d hd
    exact beq_eq_false_iff_ne.mpr (hfresh d hd)
  have hx : ((submit_document_record req ai document_id current_time).id
      == document_id) = true := by
    simp [submit_document_record]
  simp only [get_document_by_id, submit_citizen_document, create_document]
  rw [find?_append_of_not_found _ _ hnone, hx]
  simp

/-- Witness for C2: a concrete submission into an empty store. -/
theorem submit_then_get_witness :
    get_document_by_id
        (submit_citizen_document []
          { images := ["img1"], description := "passport scan",
            document_type := some "passport", citizen_id := none }
          AiAvail.noService "doc-2" "2026-01-01T00:00:00").1 "doc-2"
      = some (submit_document_record
          { images := ["img1"], description := "passport scan",
            document_type := some "passport", citizen_id := none }
          AiAvail.noService "doc-2" "2026-01-01T00:00:00") ∧
    (submit_document_record
        { images := ["img1"], description := "passport scan",
          document_type := some "passport", citizen_id := none }
        AiAvail.noService "doc-2" "2026-01-01T00:00:00").status = "submitted" ∧
    (submit_document_record
        { images := ["img1"], description := "passport scan",
          document_type := some "passport", citizen_id := none }
        AiAvail.noService "doc-2" "2026-01-01T00:00:00").department_id
      = determine_department
          (submit_document_record
            { images := ["img1"], description := "passport scan",
              document_type := some "passport", citizen_id := none }
            AiAvail.noService "doc-2" "2026-01-01T00:00:00").document_type :=
  submit_then_get [] _ AiAvail.noService "doc-2" "2026-01-01T00:00:00"
    (by intro d hd; cases hd)

end Pulse

namespace Pulse

/-- A concrete submission request with no images at all. -/
def reqNoImages : SubmitRequest :=
  { images := [], description := "", document_type := some "national_id",
    citizen_id := none }

/-- C9 counterexample: a submission whose images list is empty is NOT
rejected: the handler succeeds and a document record (with empty images) is
created, refuting the claim that Submit fails with a PreconditionError and
creates no record. -/
theorem submit_empty_images_counterexample :
    reqNoImages.images = [] ∧
    (submit_citizen_document [] reqNoImages AiAvail.noService "doc-9" "t0").2.success
      = true ∧
    (submit_citizen_document [] reqNoImages AiAvail.noService "doc-9" "t0").1
      = [submit_document_record reqNoImages AiAvail.noService "doc-9" "t0"] ∧
    (submit_document_record reqNoImages AiAvail.noService "doc-9" "t0").images = [] :=
  ⟨rfl, rfl, rfl, rfl⟩

/-- C9 amended: Submit does not validate the images sequence: for every
request whose images list is empty, it still succeeds, and the created
record's images list is empty. -/
theorem submit_accepts_empty_images (store : List Document)
    (req : SubmitRequest) (ai : AiAvail) (document_id current_time : String)
    (h : req.images = []) :
    (submit_citizen_document store req ai document_id current_time).2.success = true ∧
    (submit_citizen_document store req ai document_id current_time).1
      = create_document store (submit_document_record req ai document_id current_time) ∧
    (submit_document_record req ai document_id current_time).images = [] :=
  ⟨rfl, rfl, h⟩

/-- Witness for the amended C9 at a concrete empty-images request. -/
theorem submit_accepts_empty_images_witness :
    (submit_citizen_document [] reqNoImages AiAvail.exn "doc-9b" "t1").2.success = true ∧
    (submit_citizen_document [] reqNoImages AiAvail.exn "doc-9b" "t1").1
      = create_document [] (submit_document_record reqNoImages AiAvail.exn "doc-9b" "t1") ∧
    (submit_document_record reqNoImages AiAvail.exn "doc-9b" "t1").images = [] :=
  submit_accepts_empty_images [] reqNoImages AiAvail.exn "doc-9b" "t1" rfl

end Pulse

namespace Pulse

/-- Body of the official review request (src/backend/routers/users.py
line 208): only the comment is read, with default `""`. -/
structure OfficialReviewRequest where
  comment : Option String
  deriving Repr, DecidableEq

/-- Response of the users-router official review endpoint
(src/backend/routers/users.py lines 224-231). -/
structure OfficialReviewResponse where
  success : Bool
  message : String
  document_id : String
  status : String
  reviewed_at : String
  deriving Repr, DecidableEq

/-- src/backend/routers/users.py, `official_review_document`
(lines 175-235), applied to a found document.  No precondition is checked:
neither the current status nor the comment is validated.  The AI-validation
attempt (lines 185-203) always fails before calling the service, because
`DocumentAnalysis` at line 188 is not imported or defined in users.py
(NameError); the inner `except` swallows it, so `ai_validation` stays `None`
and the block at lines 213-222 is never attached.  The handler sets the
status to "official_reviewed" and stores the comment unconditionally. -/
def official_review_document (doc : Document) (req : OfficialReviewRequest)
    (current_time : String) : Document × OfficialReviewResponse :=
  let doc' := { doc with
    status := "official_reviewed"
    official_review_comment := some (req.comment.getD "")
    official_reviewed_at := some current_time
    updated_at := current_time }
  (doc',
   { success := true
     message := "Document reviewed by official and submitted to admin"
     document_id := doc.id
     status := "official_reviewed"
     reviewed_at := current_time })

/-- Body of the users-router admin review request
(src/backend/routers/users.py lines 297-299): the final status is taken
directly from `request.get("status", "approved")`, the comment from
`request.get("comment", "")`. -/
structure UsersAdminReviewRequest where
  status : Option String
  comment : Option String
  deriving Repr, DecidableEq

/-- Response of the users-router admin review endpoint
(src/backend/routers/users.py lines 315-322). -/
structure UsersAdminReviewResponse where
  success : Bool
  message : String
  document_id : String
  status : String
  reviewed_at : String
  deriving Repr, DecidableEq

/-- src/backend/routers/users.py, `admin_review_document` (lines 262-326),
applied to a found document.  No precondition is checked: the current status
(in particular whether it is "official_reviewed"), the requested status and
the comment are all accepted as-is.  The AI-assessment attempt
(lines 271-293) always fails before calling the service (`DocumentAnalysis`
at line 275 is a NameError, swallowed by the inner `except`), so
`ai_assessment` stays `None` and the block at lines 304-313 is never
attached. -/
def users_admin_review_document (doc : Document) (req : UsersAdminReviewRequest)
    (current_time : String) : Document × UsersAdminReviewResponse :=
  let final_status := req.status.getD "approved"
  let doc' := { doc with
    status := final_status
    admin_review_comment := some (req.comment.getD "")
    admin_reviewed_at := some current_time
    updated_at := current_time }
  (doc',
   { success := true
     message := "Document " ++ final_status ++ " by admin"
     document_id := doc.id
     status := final_status
     reviewed_at := current_time })

/-- src/backend/app_new.py, the `status_map` of `admin_review_document`
(lines 395-401): the three known actions map to terminal statuses and any
other action falls back to "under_review"
(`status_map.get(action, "under_review")`). -/
def appnew_status_map (action : String) : String :=
  if action = "approve" then "approved"
  else if action = "reject" then "rejected"
  else if action = "request_changes" then "needs_changes"
  else "under_review"

/-- Response of the app_new admin review endpoint
(src/backend/app_new.py lines 407-415). -/
structure AppNewAdminReviewResponse where
  success : Bool
  message : String
  document_id : String
  status : String
  admin_comment : String
  reviewed_by : String
  deriving Repr, DecidableEq

/-- src/backend/app_new.py, `admin_review_document` (lines 385-415), applied
to a found document.  Only existence is checked (line 392); the current
status is never inspected, the action is mapped through `appnew_status_map`
(unknown actions fall back to "under_review" rather than erroring), and the
result is written unconditionally. -/
def appnew_admin_review_document (doc : Document)
    (action comment admin_id current_time : String) :
    Document × AppNewAdminReviewResponse :=
  let new_status := appnew_status_map action
  let doc' := { doc with
    status := new_status
    admin_review_comment := some comment
    updated_at := current_time }
  (doc',
   { success := true
     message := "Document " ++ action ++ " by admin"
     document_id := doc.id
     status := new_status
     admin_comment := comment
     reviewed_by := admin_id })

/-- Response of the documents-router official review endpoint
(src/backend/routers/documents.py lines 206-214). -/
structure DocsReviewResponse where
  success : Bool
  message : String
  document_id : String
  status : String
  official_comment : String
  reviewed_by : String
  reviewed_at : String
  deriving Repr, DecidableEq

/-- src/backend/routers/documents.py, `review_document` (lines 195-216):
rejects an empty or whitespace-only comment with HTTP 400
("Review comment is required"); otherwise returns a mock success response
(no store is consulted or updated by this endpoint).  Python's
`not comment.strip()` holds exactly when every character of the comment is
whitespace (in particular for the empty comment). -/
def documents_review_document (document_id comment official_id now : String) :
    Except String DocsReviewResponse :=
  if comment.data.all Char.isWhitespace then Except.error "Review comment is required"
  else Except.ok
    { success := true
      message := "Document reviewed successfully"
      document_id := document_id
      status := "ai_processed"
      official_comment := comment
      reviewed_by := official_id
      reviewed_at := now }

/-- Response of the documents-router admin review endpoint
(src/backend/routers/documents.py lines 241-249). -/
structure DocsAdminReviewResponse where
  success : Bool
  message : String
  document_id : String
  status : String
  admin_comment : String
  reviewed_by : String
  deriving Repr, DecidableEq

/-- src/backend/routers/documents.py, `admin_review_document`
(lines 218-251): rejects an action outside {approve, reject, reassign} and
rejects an empty or whitespace-only comment, both with HTTP 400; otherwise
maps approve to "Approved", reject to "Rejected" and reassign to
"Under Review" (no store is consulted or updated by this endpoint).
Python's `not comment.strip()` holds exactly when every character of the
comment is whitespace. -/
def documents_admin_review_document (document_id action comment admin_id : String) :
    Except String DocsAdminReviewResponse :=
  if ¬ (action = "approve" ∨ action = "reject" ∨ action = "reassign") then
    Except.error "Invalid action. Must be approve, reject, or reassign"
  else if comment.data.all Char.isWhitespace then Except.error "Admin comment is required"
  else Except.ok
    { success := true
      message := "Document " ++ action ++ "ed successfully"
      document_id := document_id
      status := if action = "approve" then "Approved"
        else if action = "reject" then "Rejected"
        else "Under Review"
      admin_comment := comment
      reviewed_by := admin_id }

end Pulse

namespace Pulse

/-- A concrete freshly submitted document (as created by Submit). -/
def baseDoc : Document :=
  { id := "doc-1", citizen_id := "citizen_001", user_id := "citizen_001"
    document_type := "national_id", department_id := "nira"
    status := "submitted", images := ["img1"], description := ""
    assigned_official_id := none, official_review_comment := none
    official_reviewed_at := none, admin_review_comment := none
    admin_reviewed_at := none, created_at := "t0", updated_at := "t0"
    ai_analysis := none, ai_validation := none, ai_assessment := none
    ai_extraction := none, ai_fraud_analysis := none }

/-- A concrete document already in the terminal status "approved". -/
def docApproved : Document :=
  { baseDoc with id := "doc-4", status := "approved" }

/-- A concrete document whose status string is "pending". -/
def docPending : Document :=
  { baseDoc with id := "doc-5", status := "pending" }

end Pulse

namespace Pulse

/-- C1 counterexample: admin review of a document whose status is
"submitted" (official review skipped) does NOT fail: both the app_new and
the users-router handlers succeed and write the terminal status, changing
the document — refuting the claimed PreconditionError and the claimed
unchanged status. -/
theorem admin_review_no_state_check_counterexample :
    baseDoc.status = "submitted" ∧
    (appnew_admin_review_document baseDoc "approve" "ok" "admin_001" "t1").2.success
      = true ∧
    (appnew_admin_review_document baseDoc "approve" "ok" "admin_001" "t1").1.status
      = "approved" ∧
    (users_admin_review_document baseDoc
        { status := some "approved", comment := some "ok" } "t1").2.success = true ∧
    (users_admin_review_document baseDoc
        { status := some "approved", comment := some "ok" } "t1").1.status
      = "approved" :=
  ⟨rfl, rfl, rfl, rfl, rfl⟩

/-- C1 amended: admin review checks only that the document exists; for every
document, whatever its current status (no PreconditionError for statuses
other than "official_reviewed"), the handler succeeds and writes the new
status — in app_new the action image under `appnew_status_map`, in the users
router the requested status — touching only the status, admin comment,
admin-review timestamp and updated_at fields. -/
theorem admin_review_ignores_status (doc : Document)
    (action comment admin_id t : String) (req : UsersAdminReviewRequest)
    (t' : String) :
    (appnew_admin_review_document doc action comment admin_id t).2.success = true ∧
    (appnew_admin_review_document doc action comment admin_id t).1.status
      = appnew_status_map action ∧
    (appnew_admin_review_document doc action comment admin_id t).1.official_review_comment
      = doc.official_review_comment ∧
    (users_admin_review_document doc req t').2.success = true ∧
    (users_admin_review_document doc req t').1.status = req.status.getD "approved" ∧
    (users_admin_review_document doc req t').1
      = { doc with status := req.status.getD "approved"
                   admin_review_comment := some (req.comment.getD "")
                   admin_reviewed_at := some t'
                   updated_at := t' } :=
  ⟨rfl, rfl, rfl, rfl, rfl, rfl⟩

end Pulse

namespace Pulse

/-- C7 counterexample: an action outside {approve, reject, request_changes}
does NOT fail with a PreconditionError: app_new's admin review maps it to
the fallback status "under_review" and succeeds. -/
theorem admin_action_invalid_counterexample :
    appnew_status_map "invalid_action" = "under_review" ∧
    (appnew_admin_review_document baseDoc "invalid_action" "ok" "admin_001" "t2").2.success
      = true ∧
    (appnew_admin_review_document baseDoc "invalid_action" "ok" "admin_001" "t2").1.status
      = "under_review" :=
  ⟨rfl, rfl, rfl⟩

/-- C7 amended: the three known actions map deterministically
(approve to "approved", reject to "rejected", request_changes to
"needs_changes"); every other action maps to "under_review", and the admin
review handler succeeds for every action, writing the mapped status. -/
theorem admin_action_mapping :
    appnew_status_map "approve" = "approved" ∧
    appnew_status_map "reject" = "rejected" ∧
    appnew_status_map "request_changes" = "needs_changes" ∧
    (∀ a : String, a ≠ "approve" → a ≠ "reject" → a ≠ "request_changes" →
      appnew_status_map a = "under_review") ∧
    (∀ (doc : Document) (a c aid t : String),
      (appnew_admin_review_document doc a c aid t).2.success = true ∧
      (appnew_admin_review_document doc a c aid t).1.status = appnew_status_map a) := by
  refine ⟨rfl, rfl, rfl, ?_, ?_⟩
  · intro a h1 h2 h3
    unfold appnew_status_map
    split_ifs <;> simp_all
  · intro doc a c aid t
    exact ⟨rfl, rfl⟩

/-- Witness for the amended C7: the fallback clause at the concrete unknown
action "fake_action". -/
theorem admin_action_mapping_witness :
    appnew_status_map "fake_action" = "under_review" :=
  admin_action_mapping.2.2.2.1 "fake_action" (by decide) (by decide) (by decide)

end Pulse

namespace Pulse

/-- C6 counterexample: the users-router official review accepts an empty
comment: the handler succeeds, transitions the document to
"official_reviewed" and stores the empty comment, changing the document —
refuting the claimed PreconditionError and the claimed unchanged document. -/
theorem official_review_empty_comment_counterexample :
    (official_review_document baseDoc { comment := some "" } "t1").2.success = true ∧
    (official_review_document baseDoc { comment := some "" } "t1").1.status
      = "official_reviewed" ∧
    (official_review_document baseDoc { comment := some "" } "t1").1.official_review_comment
      = some "" ∧
    (official_review_document baseDoc { comment := some "" } "t1").1 ≠ baseDoc := by
  refine ⟨rfl, rfl, rfl, ?_⟩
  decide

/-- C6 amended: only the documents-router endpoints validate comments: both
reject an empty or whitespace-only comment with an error; the users-router
official review accepts every comment (including empty and whitespace-only),
performs the transition to "official_reviewed" and stores the comment
verbatim. -/
theorem review_comment_validation :
    (∀ did comment oid now : String, comment.data.all Char.isWhitespace = true →
      documents_review_document did comment oid now
        = Except.error "Review comment is required") ∧
    (∀ did action comment aid : String,
      (action = "approve" ∨ action = "reject" ∨ action = "reassign") →
      comment.data.all Char.isWhitespace = true →
      documents_admin_review_document did action comment aid
        = Except.error "Admin comment is required") ∧
    (∀ (doc : Document) (req : OfficialReviewRequest) (t : String),
      (official_review_document doc req t).2.success = true ∧
      (official_review_document doc req t).1.status = "official_reviewed" ∧
      (official_review_document doc req t).1.official_review_comment
        = some (req.comment.getD "")) := by
  refine ⟨?_, ?_, ?_⟩
  · intro did comment oid now h
    simp [documents_review_document, h]
  · intro did action comment aid h hcomment
    unfold documents_admin_review_document
    rw [if_neg (not_not_intro h), if_pos hcomment]
  · intro doc req t
    exact ⟨rfl, rfl, rfl⟩

/-- Witness for the amended C6 at concrete whitespace-only and empty
comments. -/
theorem review_comment_validation_witness :
    documents_review_document "doc-6" "   " "official_001" "t1"
      = Except.error "Review comment is required" ∧
    documents_admin_review_document "doc-6" "approve" "" "admin_001"
      = Except.error "Admin comment is required" ∧
    (official_review_document baseDoc { comment := some "" } "t3").2.success = true :=
  ⟨review_comment_validation.1 "doc-6" "   " "official_001" "t1" (by decide),
   review_comment_validation.2.1 "doc-6" "approve" "" "admin_001" (Or.inl rfl) (by decide),
   (review_comment_validation.2.2 baseDoc { comment := some "" } "t3").1⟩

end Pulse

namespace Pulse

/-- The "ai_extraction" block written by the extraction endpoint
(src/backend/routers/users.py lines 371-377) from a service result.  The
handler reads `ai_extraction.get("extracted_text", "")` and
`.get("metadata", {})`: the service result dict has neither key, so the
defaults are taken; `confidence_score` reads the present `"ai_confidence"`
key. -/
def extract_endpoint_block (r : GeminiServiceResult) (current_time : String) :
    ExtractionBlock :=
  { extracted_text := ""
    confidence_score := r.ai_confidence
    metadata := []
    extracted_at := current_time
    ai_model_used := "gemini-2.5-flash" }

/-- Response of the extraction endpoint
(src/backend/routers/users.py lines 382-388). -/
structure ExtractEndpointResponse where
  success : Bool
  message : String
  document_id : String
  extracted_data : Option ExtractionBlock
  extracted_at : String
  deriving Repr, DecidableEq

/-- src/backend/routers/users.py, `extract_document_information`
(lines 342-392), applied to a found document.  `ai` is the outcome of the
AI-extraction attempt (`none` when the service is unavailable or the call
raised — the inner `except` swallows the error).  Note what is NOT here:
no check of the document's current status (a document in a terminal status
is extracted and moved to "ai_processed" all the same), and the response is
a success in every case — when the extraction failed the handler still
returns `"success": True` with the previously stored block (possibly
`None`) as `extracted_data`. -/
def extract_document_information_endpoint (doc : Document)
    (ai : Option GeminiServiceResult) (current_time : String) :
    Document × ExtractEndpointResponse :=
  match ai with
  | some r =>
      let doc' := { doc with
        ai_extraction := some (extract_endpoint_block r current_time)
        status := "ai_processed"
        updated_at := current_time }
      (doc',
       { success := true
         message := "Document information extracted successfully"
         document_id := doc.id
         extracted_data := doc'.ai_extraction
         extracted_at := current_time })
  | none =>
      (doc,
       { success := true
         message := "Document information extracted successfully"
         document_id := doc.id
         extracted_data := doc.ai_extraction
         extracted_at := current_time })

end Pulse

namespace Pulse

/-- C4 counterexample: the extraction endpoint enforces no terminal-state
precondition and does not report failures: run on a document already in the
terminal status "approved" it succeeds and moves the status to
"ai_processed"; and when the AI call fails it still answers with
`success = true` instead of reporting the failure. -/
theorem extract_terminal_state_counterexample :
    docApproved.status = "approved" ∧
    (extract_document_information_endpoint docApproved
        (some (fallback_extraction "national_id" "t0")) "t1").2.success = true ∧
    (extract_document_information_endpoint docApproved
        (some (fallback_extraction "national_id" "t0")) "t1").1.status
      = "ai_processed" ∧
    (extract_document_information_endpoint docApproved none "t1").2.success = true ∧
    (extract_document_information_endpoint docApproved none "t1").1 = docApproved :=
  ⟨rfl, rfl, rfl, rfl, rfl⟩

/-- C4 amended: the extraction endpoint requires only that the document
exists; it checks no state, so it runs in every status including terminal
ones.  On AI success it writes the `ai_extraction` block and advances the
status to "ai_processed"; on AI failure it leaves the document completely
unchanged but still reports success to the caller (the failure is only
logged). -/
theorem extract_endpoint_behaviour (doc : Document)
    (ai : Option GeminiServiceResult) (t : String) :
    (extract_document_information_endpoint doc ai t).2.success = true ∧
    (ai = none → (extract_document_information_endpoint doc ai t).1 = doc) ∧
    (∀ r, ai = some r →
      (extract_document_information_endpoint doc ai t).1.status = "ai_processed" ∧
      (extract_document_information_endpoint doc ai t).1.ai_extraction
        = some (extract_endpoint_block r t) ∧
      (extract_document_information_endpoint doc ai t).1
        = { doc with ai_extraction := some (extract_endpoint_block r t)
                     status := "ai_processed"
                     updated_at := t }) := by
  cases ai with
  | none =>
      exact ⟨rfl, fun _ => rfl, fun r hr => by cases hr⟩
  | some r0 =>
      refine ⟨rfl, ?_, ?_⟩
      · intro h
        cases h
      · intro r hr
        cases hr
        exact ⟨rfl, rfl, rfl⟩

/-- Witness for the amended C4: on a concrete submitted document, a failed
AI call leaves the document unchanged yet the response succeeds, and a
successful AI call advances the status. -/
theorem extract_endpoint_behaviour_witness :
    (extract_document_information_endpoint baseDoc none "t1").2.success = true ∧
    (extract_document_information_endpoint baseDoc none "t1").1 = baseDoc ∧
    (extract_document_information_endpoint baseDoc
        (some (fallback_extraction "other" "t0")) "t1").1.status = "ai_processed" :=
  ⟨(extract_endpoint_behaviour baseDoc none "t1").1,
   (extract_endpoint_behaviour baseDoc none "t1").2.1 rfl,
   ((extract_endpoint_behaviour baseDoc (some (fallback_extraction "other" "t0")) "t1").2.2
      (fallback_extraction "other" "t0") rfl).1⟩

end Pulse

namespace Pulse

/-- The JSON object returned by the stats endpoint
(src/backend/routers/users.py lines 439-448). -/
structure StatsOverview where
  total_documents : Nat
  pending : Nat
  ai_processed : Nat
  official_review : Nat
  admin_review : Nat
  completed : Nat
  rejected : Nat
  completed_today : Nat
  deriving Repr, DecidableEq

/-- src/backend/routers/users.py, `get_documents_stats_overview`
(lines 394-450).  The per-document counter increments of the loop
(lines 420-437) become one `countP` per counter; note
`pending_statuses = {"submitted", "pending"}` at line 401.  The ambient
`is_today` date test is passed in as the predicate `isToday`, applied as in
the code to `doc.get("updated_at", ...)` (always present here). -/
def get_documents_stats_overview (all_docs : List Document)
    (isToday : String → Bool) : StatsOverview :=
  { total_documents := all_docs.length
    pending := all_docs.countP
      (fun d => d.status == "submitted" || d.status == "pending")
    ai_processed := all_docs.countP
      (fun d => d.status == "ai_processed" || d.ai_extraction.isSome)
    official_review := all_docs.countP (fun d => d.status == "official_reviewed")
    admin_review := all_docs.countP
      (fun d => d.admin_review_comment.isSome || d.ai_assessment.isSome)
    completed := all_docs.countP (fun d => d.status == "approved")
    rejected := all_docs.countP (fun d => d.status == "rejected")
    completed_today := all_docs.countP
      (fun d => d.status == "approved" && isToday d.updated_at) }

/-- Modelled from the claim's words, not from the source: the pending count
the claim asserts — the number of documents whose status is exactly
"submitted". -/
def claim_pending_count (docs : List Document) : Nat :=
  docs.countP (fun d => d.status == "submitted")

end Pulse

namespace Pulse

/-- C5 counterexample: on a store holding one document whose status string
is "pending", the stats overview reports `pending = 1`, but the number of
documents with status in {submitted} is 0 — the code counts
`{"submitted", "pending"}`, not `{"submitted"}` as claimed.  (The status
"pending" is reachable: the users-router admin review writes
`request.get("status", "approved")` verbatim.) -/
theorem stats_pending_counterexample :
    docPending.status = "pending" ∧
    (get_documents_stats_overview [docPending] (fun _ => false)).pending = 1 ∧
    claim_pending_count [docPending] = 0 :=
  ⟨rfl, rfl, rfl⟩

/-- C5 amended: for every collection of stored documents, the stats overview
returns pending = the number of documents with status in
{submitted, pending}, ai-processed = the number with status "ai_processed"
or an ai_extraction block present, official-review = the number with status
"official_reviewed", admin-review = the number with an admin_review_comment
or an ai_assessment present, completed = the number with status "approved",
and rejected = the number with status "rejected"; on an empty store every
count is zero. -/
theorem stats_overview_counts (docs : List Document) (isToday : String → Bool) :
    (get_documents_stats_overview docs isToday).pending
      = (docs.filter (fun d =>
          decide (d.status = "submitted" ∨ d.status = "pending"))).length ∧
    (get_documents_stats_overview docs isToday).ai_processed
      = (docs.filter (fun d =>
          decide (d.status = "ai_processed" ∨ d.ai_extraction ≠ none))).length ∧
    (get_documents_stats_overview docs isToday).official_review
      = (docs.filter (fun d => decide (d.status = "official_reviewed"))).length ∧
    (get_documents_stats_overview docs isToday).admin_review
      = (docs.filter (fun d =>
          decide (d.admin_review_comment ≠ none ∨ d.ai_assessment ≠ none))).length ∧
    (get_documents_stats_overview docs isToday).completed
      = (docs.filter (fun d => decide (d.status = "approved"))).length ∧
    (get_documents_stats_overview docs isToday).rejected
      = (docs.filter (fun d => decide (d.status = "rejected"))).length ∧
    get_documents_stats_overview [] isToday
      = { total_documents := 0, pending := 0, ai_processed := 0,
          official_review := 0, admin_review := 0, completed := 0,
          rejected := 0, completed_today := 0 } := by
  refine ⟨?_, ?_, ?_, ?_, ?_, ?_, rfl⟩ <;>
    simp only [get_documents_stats_overview, List.countP_eq_length_filter] <;>
    congr 1 <;>
    (apply List.filter_congr; intro d _; rw [Bool.eq_iff_iff];
      simp [Option.isSome_iff_ne_none])

end Pulse

namespace Pulse

/-- Error outcomes of the fraud analysis endpoint. -/
inductive FraudEndpointError where
  | notFound
  | nameErrorDocumentAnalysis
  deriving Repr, DecidableEq

/-- Response of the fraud analysis endpoint
(src/backend/routers/users.py lines 509-515); never actually produced, see
`analyze_document_fraud`. -/
structure FraudResponse where
  success : Bool
  message : String
  document_id : String
  fraud_analysis : Option FraudBlock
  analyzed_at : String
  deriving Repr, DecidableEq

/-- src/backend/routers/users.py, `analyze_document_fraud` (lines 452-519).
After the document lookup succeeds, both branches of the `extracted_data`
construction (lines 461-479) call `DocumentAnalysis(...)`; that name is
neither imported nor defined anywhere in users.py (the class exists only in
services/ai_service_simple.py and services/ai_service_old.py), so Python
raises `NameError` there — outside any inner `try` — and the outer handler
turns it into an HTTP 500.  The fraud-analysis AI call at lines 481-491 and
the block write at lines 493-507 are therefore unreachable: the endpoint
always fails for an existing document, and the stored document is never
mutated (no `ai_fraud_analysis` block, no status or timestamp change). -/
def analyze_document_fraud (store : List Document) (document_id : String) :
    Except FraudEndpointError (List Document × FraudResponse) :=
  match get_document_by_id store document_id with
  | none => Except.error FraudEndpointError.notFound
  | some _ => Except.error FraudEndpointError.nameErrorDocumentAnalysis

end Pulse

namespace Pulse

/-- C8 (code bug): evaluating the fraud analysis endpoint at a concrete
existing submitted document: instead of attaching the `ai_fraud_analysis`
block while preserving the status, the handler fails with the `NameError`
on `DocumentAnalysis` (HTTP 500); on a missing id it reports not-found.
The endpoint has no success outcome at all, so no document is ever mutated
by it. -/
theorem analyze_fraud_name_error :
    analyze_document_fraud [baseDoc] "doc-1"
      = Except.error FraudEndpointError.nameErrorDocumentAnalysis ∧
    analyze_document_fraud [baseDoc] "doc-missing"
      = Except.error FraudEndpointError.notFound :=
  ⟨rfl, rfl⟩

end Pulse

namespace Pulse

/-- The document dict stored by app_new's submission endpoint
(src/backend/app_new.py lines 270-290): its shape differs from the
users-router record — the AI results are inlined as top-level fields. -/
structure AppNewDocument where
  id : String
  user_id : String
  citizen_id : String
  document_type : String
  department_id : String
  status : String
  images : List String
  description : Option String
  ai_extracted_fields : List (String × String)
  ai_extracted_data : List (String × String)
  ai_confidence : Rat
  ai_quality_score : Rat
  ai_fraud_risk : Rat
  ai_recommendations : List String
  ai_issues : List String
  created_at : String
  updated_at : String
  deriving Repr, DecidableEq

/-- Response of app_new's submission endpoint
(src/backend/app_new.py lines 294-300). -/
structure AppNewSubmitResponse where
  success : Bool
  message : String
  document_id : String
  status : String
  submitted_at : String
  deriving Repr, DecidableEq

/-- src/backend/app_new.py, `submit_document` (lines 263-300): runs the AI
extraction inline and stores the document directly in status
"ai_processed" (line 277, "mark as processed so UI shows AI section"),
with `department_id = submission.department_id or "dept_001"` (line 275) —
the department router is never consulted.  `department_id` is the optional
field of the submission body; a missing (or empty) value falls back to
"dept_001". -/
def appnew_submit_document (document_type : String)
    (department_id : Option String) (images : List String)
    (description : Option String) (ai_result : GeminiServiceResult)
    (document_id now : String) : AppNewDocument × AppNewSubmitResponse :=
  let document : AppNewDocument :=
    { id := document_id
      user_id := "citizen_001"
      citizen_id := "citizen_001"
      document_type := document_type
      department_id := department_id.getD "dept_001"
      status := "ai_processed"
      images := images
      description := description
      ai_extracted_fields := ai_result.extracted_data
      ai_extracted_data := ai_result.extracted_data
      ai_confidence := ai_result.ai_confidence
      ai_quality_score := ai_result.ai_quality_score
      ai_fraud_risk := ai_result.ai_fraud_risk
      ai_recommendations := ai_result.ai_recommendations
      ai_issues := ai_result.ai_issues
      created_at := now
      updated_at := now }
  (document,
   { success := true
     message := "Document submitted successfully"
     document_id := document_id
     status := document.status
     submitted_at := document.created_at })

end Pulse

namespace Pulse

/-- C2 counterexample: a submission through app_new's `submit_document`
(cited by the claim alongside the users-router implementation): the stored
document's status is "ai_processed", not "submitted", and its department is
the caller-fallback "dept_001", not the DepartmentRouter lookup for its
document type ("national_id" routes to "nira"). -/
theorem appnew_submit_counterexample :
    (appnew_submit_document "national_id" none ["img1"] none
        (fallback_extraction "national_id" "t0") "doc-2b" "t0").1.status
      = "ai_processed" ∧
    (appnew_submit_document "national_id" none ["img1"] none
        (fallback_extraction "national_id" "t0") "doc-2b" "t0").1.status
      ≠ "submitted" ∧
    (appnew_submit_document "national_id" none ["img1"] none
        (fallback_extraction "national_id" "t0") "doc-2b" "t0").1.department_id
      = "dept_001" ∧
    (appnew_submit_document "national_id" none ["img1"] none
        (fallback_extraction "national_id" "t0") "doc-2b" "t0").1.department_id
      ≠ determine_department
          (appnew_submit_document "national_id" none ["img1"] none
            (fallback_extraction "national_id" "t0") "doc-2b" "t0").1.document_type := by
  refine ⟨rfl, ?_, rfl, ?_⟩ <;> decide

end Pulse
